import Mathlib

/-!
# Verification of the IPTV addon aggregation-and-cache engine

Shallow embedding of the merge/filter/cache logic of the repository's
Stremio IPTV addon implementations:

* variant A: the first implementation in `src/index.js`
  (`loadCustomChannels`, `toMeta`, `getApiChannels`, `getApiStreams`,
  `getAllInfo`, `fetchAndCacheInfo`, the three addon handlers);
* variant B: the second implementation in `src/index.js`
  (its `getAllInfo` filter predicate at lines 637-651);
* variant P: the implementation in `src/unnamed/part_001`
  (multi-stream `getAllInfo`);
* the verification cache (`verifyStreamURL`, `src/index.js` lines 566-609);
* the serverless catalog handler (`src/netlify/functions/addons.js`,
  `handleCatalog` / `channelToMeta`).

JavaScript `undefined`/`null` field values are modelled with `Option`;
JavaScript string truthiness (`""` is falsy) is modelled by the `jsOr*`
helpers below.  Network fetches are modelled by passing the fetch outcome
(`Except Unit _`) explicitly; the `NodeCache` instance is modelled as an
explicit state record threaded through the stateful operations.
-/

namespace IPTV

/-- JavaScript `a || b` on an optional string: `undefined`, `null` and the
empty string all fall through to `b`. -/
def jsOr (a b : Option String) : Option String :=
  match a with
  | some s => if s = "" then b else some s
  | none => b

/-- JavaScript `a || d` where `d` is a plain (non-empty) default string. -/
def jsOrD (a : Option String) (d : String) : String :=
  match a with
  | some s => if s = "" then d else s
  | none => d

/-- JavaScript `String.prototype.toLowerCase` on the character sequence
(ASCII-adequate for the country and category codes involved). -/
def jsToLower (s : String) : String :=
  String.mk (s.data.map Char.toLower)

/-- JavaScript `String.prototype.toUpperCase` on the character sequence. -/
def jsToUpper (s : String) : String :=
  String.mk (s.data.map Char.toUpper)

/-- A channel record as consumed by the merge (fields of the remote
channel-directory feed plus the `isCustom` tag added by
`loadCustomChannels`).  Optional fields model absent (`undefined`) JSON
fields. -/
structure Channel where
  id : String
  name : String
  country : String
  languages : Option (List String) := none
  categories : Option (List String) := none
  is_nsfw : Bool := false
  logo : Option String := none
  isCustom : Bool := false
  deriving Repr, DecidableEq

/-- A stream record (remote stream-directory feed shape plus the
`isCustom` tag). -/
structure Stream where
  channel : String
  url : String
  title : Option String := none
  referrer : Option String := none
  http_referrer : Option String := none
  user_agent : Option String := none
  isCustom : Bool := false
  deriving Repr, DecidableEq

/-- The filter-policy part of the module-level `config` object. -/
structure Config where
  includeLanguages : List String := []
  includeCountries : List String := []
  excludeLanguages : List String := []
  excludeCountries : List String := []
  excludeCategories : List String := []
  deriving Repr, DecidableEq

/-- The `streamInfo` object attached to a meta by variant A's
`getAllInfo`. -/
structure StreamInfo where
  url : String
  title : String
  httpReferrer : Option String
  userAgent : Option String
  deriving Repr, DecidableEq

/-- The Stremio meta object produced by variant A's `toMeta` (plus the
`streamInfo` field attached during the merge). -/
structure Meta where
  id : String
  name : String
  genres : List String
  poster : Option String
  background : Option String
  logo : Option String
  isCustom : Bool
  streamInfo : Option StreamInfo := none
  deriving Repr, DecidableEq

/-- `toMeta` of variant A (`src/index.js` lines 121-131):
`genres = [...(channel.categories || []), channel.country].filter(Boolean)`. -/
def toMeta (c : Channel) : Meta :=
  { id := "iptv-" ++ c.id
    name := c.name
    genres := ((c.categories.getD []) ++ [c.country]).filter (fun s => s ≠ "")
    poster := c.logo
    background := jsOr c.logo none
    logo := jsOr c.logo none
    isCustom := c.isCustom
    streamInfo := none }

/-- Variant A's stream map (`src/index.js` lines 179-184): a JS `Map`
built by iterated `set`, skipping streams whose `channel` field is falsy.
`Map.set` overwrites, so a later stream for the same channel replaces an
earlier one. -/
def streamMapA (streams : List Stream) : String → Option Stream :=
  streams.foldl
    (fun m s =>
      if s.channel = "" then m
      else fun k => if k = s.channel then some s else m k)
    (fun _ => none)

/-- Variant A's filter predicate (`src/index.js` lines 186-201). -/
def channelPredA (cfg : Config) (sm : String → Option Stream) (c : Channel) : Bool :=
  if (sm c.id).isNone then false
  else if c.isCustom then true
  else if decide (cfg.includeCountries ≠ []) && !(cfg.includeCountries.contains c.country) then false
  else if decide (cfg.excludeCountries ≠ []) && cfg.excludeCountries.contains c.country then false
  else if (match c.languages with
    | some langs =>
        (decide (cfg.includeLanguages ≠ []) &&
          !(langs.any (fun l => cfg.includeLanguages.contains l))) ||
        (decide (cfg.excludeLanguages ≠ []) &&
          langs.any (fun l => cfg.excludeLanguages.contains l))
    | none => false) then false
  else if cfg.excludeCategories.any (fun cat =>
      match c.categories with
      | some cats => cats.contains cat
      | none => false) then false
  else true

/-- The `streamInfo` object variant A attaches to a meta (lines 205-210):
`streamInfo.title || 'Live Stream'`,
`streamInfo.referrer || streamInfo.http_referrer`. -/
def streamInfoOfA (s : Stream) : StreamInfo :=
  { url := s.url
    title := jsOrD s.title "Live Stream"
    httpReferrer := jsOr s.referrer s.http_referrer
    userAgent := s.user_agent }

/-- The meta-with-streamInfo built for a surviving channel in variant A's
`getAllInfo` (lines 202-212). -/
def mkMetaA (sm : String → Option Stream) (c : Channel) : Meta :=
  match sm c.id with
  | some s => { toMeta c with streamInfo := some (streamInfoOfA s) }
  | none => toMeta c

/-- The pure merge core of variant A's `getAllInfo`
(`src/index.js` lines 171-216), taking the already-concatenated channel
and stream lists. -/
def mergeCoreA (cfg : Config) (allChannels : List Channel) (allStreams : List Stream) :
    List Meta :=
  let sm := streamMapA allStreams
  (allChannels.filter (channelPredA cfg sm)).map (mkMetaA sm)

/-- Variant A's merge on the four source lists
(`allChannels = [...apiChannels, ...customData.channels]`, same for
streams; the empty-channel early return at lines 174-177). -/
def mergeA (cfg : Config) (apiChannels : List Channel) (apiStreams : List Stream)
    (customChannels : List Channel) (customStreams : List Stream) : List Meta :=
  let allChannels := apiChannels ++ customChannels
  let allStreams := apiStreams ++ customStreams
  if allChannels.length = 0 then []
  else mergeCoreA cfg allChannels allStreams

/-- A raw channel entry of the custom overlay file, before
`loadCustomChannels` applies its defaults (optional fields model absent
JSON fields). -/
structure RawChannel where
  id : String
  name : String
  country : Option String := none
  languages : Option (List String) := none
  categories : Option (List String) := none
  is_nsfw : Bool := false
  logo : Option String := none
  deriving Repr, DecidableEq

/-- A raw stream entry of the custom overlay file. -/
structure RawStream where
  channel : String
  url : String
  title : Option String := none
  referrer : Option String := none
  http_referrer : Option String := none
  user_agent : Option String := none
  deriving Repr, DecidableEq

/-- The parsed custom overlay file `{ channels: [...], streams: [...] }`. -/
structure CustomFile where
  channels : List RawChannel := []
  streams : List RawStream := []
  deriving Repr, DecidableEq

/-- Variant A's `loadCustomChannels` channel formatting
(`src/index.js` lines 101-106): spread plus
`country: channel.country || 'AU'`, `categories: channel.categories || ['auto']`,
`isCustom: true`.  A supplied empty `categories` array is truthy in
JavaScript, so only an absent field receives the `['auto']` default. -/
def formatCustomChannelA (c : RawChannel) : Channel :=
  { id := c.id
    name := c.name
    country := jsOrD c.country "AU"
    languages := c.languages
    categories := some (c.categories.getD ["auto"])
    is_nsfw := c.is_nsfw
    logo := c.logo
    isCustom := true }

/-- Variant A's `loadCustomChannels` stream formatting (lines 107-110):
spread plus `isCustom: true`. -/
def formatCustomStreamA (s : RawStream) : Stream :=
  { channel := s.channel
    url := s.url
    title := s.title
    referrer := s.referrer
    http_referrer := s.http_referrer
    user_agent := s.user_agent
    isCustom := true }

/-- Variant A's `loadCustomChannels` (`src/index.js` lines 94-119).
`file = none` models a missing or unparsable overlay file (the `catch`
branch), which yields the empty contribution. -/
def loadCustomChannelsA (enable : Bool) (file : Option CustomFile) :
    List Channel × List Stream :=
  if enable then
    match file with
    | some f => (f.channels.map formatCustomChannelA, f.streams.map formatCustomStreamA)
    | none => ([], [])
  else ([], [])

/-! ## The cache and the stateful operations of variant A -/

/-- The relevant keys of the module-level `NodeCache` instance
(`stdTTL: 0`, so entries never expire).  The `apiChannels` field models
the `'apiChannels'` key read by `getApiChannels`'s fallback; no code path
in the repository ever writes it. -/
structure CacheState where
  apiStreams : Option (List Stream) := none
  apiChannels : Option (List Channel) := none
  channelsInfo : Option (List Meta) := none
  deriving Repr, DecidableEq

/-- One refresh cycle's external-world outcomes: the remote channel fetch,
the remote stream fetch, and the custom overlay load (already reduced to
its contribution, `([], [])` on failure as in `loadCustomChannels`). -/
structure FetchEnv where
  channelsFetch : Except Unit (List Channel)
  streamsFetch : Except Unit (List Stream)
  custom : List Channel × List Stream
  deriving Repr

/-- `getApiChannels` (`src/index.js` lines 133-143): return the fetched
data, or `cache.get('apiChannels') || []` on a fetch error. -/
def getApiChannels (st : CacheState) (fetch : Except Unit (List Channel)) :
    List Channel :=
  match fetch with
  | .ok data => data
  | .error _ => st.apiChannels.getD []

/-- `getApiStreams` (`src/index.js` lines 145-158): serve the cached
`'apiStreams'` entry; on a miss fetch, cache on success, and return the
empty list on failure without caching. -/
def getApiStreams (st : CacheState) (fetch : Except Unit (List Stream)) :
    List Stream × CacheState :=
  match st.apiStreams with
  | some data => (data, st)
  | none =>
      match fetch with
      | .ok data => (data, { st with apiStreams := some data })
      | .error _ => ([], st)

/-- Variant A's `getAllInfo` (`src/index.js` lines 160-217) as a state
transformer: serve the cached `'channelsInfo'` snapshot if present,
otherwise fetch all sources, merge, and cache the result — except that the
zero-channel early return (lines 174-177) returns `[]` *without* caching. -/
def getAllInfo (cfg : Config) (env : FetchEnv) (st : CacheState) :
    List Meta × CacheState :=
  match st.channelsInfo with
  | some info => (info, st)
  | none =>
      let p := getApiStreams st env.streamsFetch
      let apiChannels := getApiChannels p.2 env.channelsFetch
      let allChannels := apiChannels ++ env.custom.1
      let allStreams := p.1 ++ env.custom.2
      if allChannels.length = 0 then ([], p.2)
      else
        let metas := mergeCoreA cfg allChannels allStreams
        (metas, { p.2 with channelsInfo := some metas })

/-- `fetchAndCacheInfo` (`src/index.js` lines 219-229): delete the
`'channelsInfo'` snapshot, then rebuild it via `getAllInfo` (errors are
caught and logged, so the operation always completes). -/
def fetchAndCacheInfo (cfg : Config) (env : FetchEnv) (st : CacheState) :
    CacheState :=
  (getAllInfo cfg env { st with channelsInfo := none }).2

/-- The catalog handler's country + genre filtering
(`src/index.js` lines 234-247) applied to a snapshot. -/
def catalogFilter (snapshot : List Meta) (country : String)
    (genre : Option String) : List Meta :=
  let metas := snapshot.filter (fun m => m.genres.contains country)
  match genre with
  | some g => metas.filter (fun m => m.genres.contains g)
  | none => metas

/-- The catalog handler (`defineCatalogHandler`, lines 234-247) as a state
transformer: obtain the snapshot through `getAllInfo`, then filter. -/
def catalogHandler (cfg : Config) (env : FetchEnv) (st : CacheState)
    (country : String) (genre : Option String) : List Meta × CacheState :=
  let p := getAllInfo cfg env st
  (catalogFilter p.1 country genre, p.2)

/-- The meta handler (`defineMetaHandler`, lines 249-256) on a snapshot;
the `meta || {}` empty-object sentinel is modelled as `none`. -/
def metaHandler (snapshot : List Meta) (ty : String) (id : String) :
    Option Meta :=
  if ty = "tv" && id.startsWith "iptv-" then
    snapshot.find? (fun m => m.id = id)
  else none

/-- The stream handler (`defineStreamHandler`, lines 258-268) on a
snapshot: the single `streamInfo` of the matched meta, or `[]`. -/
def streamHandler (snapshot : List Meta) (ty : String) (id : String) :
    List StreamInfo :=
  if ty = "tv" && id.startsWith "iptv-" then
    match snapshot.find? (fun m => m.id = id) with
    | some m =>
        match m.streamInfo with
        | some si => [si]
        | none => []
    | none => []
  else []

/-! ## Variant B: the second implementation in `src/index.js` -/

/-- Variant B's stream map (`src/index.js` line 634):
`new Map(allStreams.map(stream => [stream.channel, stream]))`.  The `Map`
constructor inserts in order, so a later stream for the same channel key
overwrites an earlier one; there is no truthiness check on the key. -/
def streamMapB (streams : List Stream) : String → Option Stream :=
  streams.foldl
    (fun m s => fun k => if k = s.channel then some s else m k)
    (fun _ => none)

/-- Variant B's filter predicate (`src/index.js` lines 637-651): only
custom channels whose country is `'PT'` skip the policy checks; every
channel still requires `streamMap.has(channel.id)`. -/
def channelPredB (cfg : Config) (sm : String → Option Stream) (c : Channel) : Bool :=
  if c.isCustom && c.country = "PT" then (sm c.id).isSome
  else if decide (cfg.includeCountries ≠ []) && !(cfg.includeCountries.contains c.country) then false
  else if decide (cfg.excludeCountries ≠ []) && cfg.excludeCountries.contains c.country then false
  else if (match c.languages with
    | some langs =>
        (decide (cfg.includeLanguages ≠ []) &&
          !(langs.any (fun l => cfg.includeLanguages.contains l))) ||
        (decide (cfg.excludeLanguages ≠ []) &&
          langs.any (fun l => cfg.excludeLanguages.contains l))
    | none => false) then false
  else if cfg.excludeCategories.any (fun cat =>
      match c.categories with
      | some cats => cats.contains cat
      | none => false) then false
  else (sm c.id).isSome

/-- Variant B's meta construction for one filtered channel
(`src/index.js` lines 654-666): `null` when no stream is found, otherwise
the meta with a `streamInfo` that has no `userAgent` field. -/
def mkMetaB? (sm : String → Option Stream) (c : Channel) : Option Meta :=
  match sm c.id with
  | some s =>
      some { toMeta c with
               streamInfo := some
                 { url := s.url
                   title := jsOrD s.title "Live Stream"
                   httpReferrer := jsOr s.referrer s.http_referrer
                   userAgent := none } }
  | none => none

/-- The merge core of variant B's `getAllInfo` (`src/index.js`
lines 633-668): filter, map to metas, and drop the `null` entries
(`.filter(Boolean)`). -/
def mergeCoreB (cfg : Config) (allChannels : List Channel) (allStreams : List Stream) :
    List Meta :=
  let sm := streamMapB allStreams
  (allChannels.filter (channelPredB cfg sm)).filterMap (mkMetaB? sm)

/-! ## Variant P: `src/unnamed/part_001` (multi-stream merge) -/

/-- A stream descriptor of variant P's metas (`meta.streams` entries,
`src/unnamed/part_001` lines 277-282): `referrer || null` and
`user_agent || null`. -/
structure StreamDescP where
  url : String
  title : String
  httpReferrer : Option String
  userAgent : Option String
  deriving Repr, DecidableEq

/-- The meta object of variant P (`toMeta` at lines 199-212, genres
lowercased, plus the `streams` list attached by `getAllInfo`). -/
structure MetaP where
  id : String
  name : String
  genres : List String
  poster : Option String
  isCustom : Bool
  streams : List StreamDescP := []
  deriving Repr, DecidableEq

/-- Variant P's stream grouping (`src/unnamed/part_001` lines 257-263):
the map from a channel id to *all* streams pushed for it, in source
order. -/
def streamsFor (streams : List Stream) (id : String) : List Stream :=
  streams.filter (fun s => s.channel = id)

/-- Variant P's filter predicate (lines 265-272): a stream is required,
and only country include/exclude rules apply. -/
def channelPredP (cfg : Config) (allStreams : List Stream) (c : Channel) : Bool :=
  if (streamsFor allStreams c.id).isEmpty then false
  else
    let countryMatch := decide (cfg.includeCountries = []) || cfg.includeCountries.contains c.country
    let countryExclude := decide (cfg.excludeCountries ≠ []) && cfg.excludeCountries.contains c.country
    countryMatch && !countryExclude

/-- Variant P's meta construction (`toMeta` plus the `meta.streams`
assignment at lines 274-284). -/
def mkMetaP (allStreams : List Stream) (c : Channel) : MetaP :=
  { id := "iptv-" ++ c.id
    name := c.name
    genres := (((c.categories.getD []) ++ [c.country]).filter (fun s => s ≠ "")).map
      jsToLower
    poster := c.logo
    isCustom := c.isCustom
    streams := (streamsFor allStreams c.id).map (fun s =>
      { url := s.url
        title := jsOrD s.title (c.name ++ " - Live")
        httpReferrer := jsOr s.referrer none
        userAgent := jsOr s.user_agent none }) }

/-- Variant P's merge (`getAllInfo` at `src/unnamed/part_001`
lines 240-290): concatenate, early-return on zero channels, filter by
`channelPredP`, build metas, and keep only metas with a non-empty
`streams` list (`finalChannels`). -/
def mergeP (cfg : Config) (apiChannels : List Channel) (apiStreams : List Stream)
    (customChannels : List Channel) (customStreams : List Stream) : List MetaP :=
  let allChannels := apiChannels ++ customChannels
  let allStreams := apiStreams ++ customStreams
  if allChannels.length = 0 then []
  else
    ((allChannels.filter (channelPredP cfg allStreams)).map (mkMetaP allStreams)).filter
      (fun m => decide (m.streams.length > 0))

/-! ## The verification cache (`verifyStreamURL`, `src/index.js` 566-609) -/

/-- `verifyStreamURL` as a state transformer over the URL-keyed boolean
entries of the `NodeCache` instance (`stdTTL: 0`: entries never expire, so
every call is inside the TTL window).  The probe outcome is passed
explicitly: `.ok status` models a completed HEAD request, `.error ()` any
probe failure.  The returned `Nat` counts the network probes issued by the
call.  On a cache hit the cached boolean is returned unchanged
(`cachedResult !== undefined`, so a cached `false` is served too); on a
miss the boolean result — `status === 200` on completion, `false` on
failure — is cached either way. -/
def verifyStreamURL (vc : List (String × Bool)) (url : String)
    (probe : Except Unit Nat) : Bool × List (String × Bool) × Nat :=
  match vc.lookup url with
  | some b => (b, vc, 0)
  | none =>
      match probe with
      | .ok status => (status == 200, (url, status == 200) :: vc, 1)
      | .error _ => (false, (url, false) :: vc, 1)

/-- `verifyStreamURL` of `src/unnamed/part_002` (lines 91-119), with the
same state-transformer signature for comparison: that variant declares a
`NodeCache` (`stdTTL: 300`) but its `verifyStreamURL` never calls
`cache.get` or `cache.set`, so every call issues its own probe
(`status === 200` on completion, `false` on any failure) and the cache
entries are left untouched. -/
def verifyStreamURLServerless (vc : List (String × Bool)) (_url : String)
    (probe : Except Unit Nat) : Bool × List (String × Bool) × Nat :=
  match probe with
  | .ok status => (status == 200, vc, 1)
  | .error _ => (false, vc, 1)

/-! ## The serverless catalog handler (`src/netlify/functions/addons.js`) -/

/-- A channel record of the iptv-org feed as used by the netlify handler
(`name` may be absent: the sort key is `a.name || ''`). -/
structure NChannel where
  id : String
  name : Option String := none
  country : Option String := none
  network : Option String := none
  languages : Option (List String) := none
  categories : Option (List String) := none
  is_nsfw : Bool := false
  logo : Option String := none
  website : Option String := none
  deriving Repr, DecidableEq

/-- A stream record of the iptv-org feed as used by the netlify handler. -/
structure NStream where
  channel : String
  url : String
  title : Option String := none
  quality : Option String := none
  user_agent : Option String := none
  referrer : Option String := none
  deriving Repr, DecidableEq

/-- The Stremio meta produced by `channelToMeta`
(`src/netlify/functions/addons.js` lines 141-175); `behaviorHints` is
flattened to its single `defaultVideoId` field. -/
structure NMeta where
  id : String
  name : Option String
  poster : Option String
  background : Option String
  logo : Option String
  description : String
  genres : Option (List String)
  country : Option String
  language : Option String
  website : Option String
  defaultVideoId : Option String
  deriving Repr, DecidableEq

/-- `c.charAt(0).toUpperCase() + c.slice(1)`. -/
def capFirst (s : String) : String :=
  match s.data with
  | [] => ""
  | ch :: rest => String.mk (ch.toUpper :: rest)

/-- An optional description line: `cond ? text : null` with JS string
truthiness on the optional source value. -/
def descLine (prefixTxt : String) (v : Option String) : Option String :=
  match v with
  | some s => if s = "" then none else some (prefixTxt ++ s)
  | none => none

/-- `channelToMeta` (`src/netlify/functions/addons.js` lines 141-175). -/
def channelToMeta (streams : List NStream) (c : NChannel) : NMeta :=
  let channelStreams := streams.filter (fun s => s.channel = c.id)
  let hasStreams := decide (channelStreams.length > 0)
  let genresStr :=
    match c.categories with
    | some cats => String.intercalate ", " (cats.map capFirst)
    | none => "General"
  let description := String.intercalate "\n"
    (([descLine "Network: " c.network,
       descLine "Country: " c.country,
       (match c.languages with
        | some langs =>
            if langs.length ≠ 0 then some ("Languages: " ++ String.intercalate ", " langs)
            else none
        | none => none),
       some (if hasStreams then toString channelStreams.length ++ " stream(s) available"
             else "No streams available")]).filterMap id)
  { id := "iptv:" ++ c.id
    name := c.name
    poster := jsOr c.logo none
    background := jsOr c.logo none
    logo := jsOr c.logo none
    description := description
    genres := if genresStr = "" then none else some [genresStr]
    country := jsOr c.country none
    language := c.languages.bind (fun l => l.head?)
    website := jsOr c.website none
    defaultVideoId := if hasStreams then some ("iptv:" ++ c.id ++ ":0") else none }

/-- The `regions` table inside `handleCatalog` (lines 190-195);
`regions[regionId] || []`. -/
def regionCountries (r : String) : List String :=
  if r = "europe" then ["GB", "DE", "FR", "IT", "ES", "NL", "PL", "PT", "RO", "GR"]
  else if r = "americas" then ["US", "CA", "MX", "BR", "AR", "CL", "CO", "PE"]
  else if r = "asia" then ["IN", "CN", "JP", "KR", "TH", "ID", "MY", "PH"]
  else []

/-- The `extra` parameters of a catalog request.  `skip` models
`parseInt(extra.skip) || 0` (an absent or unparsable value is `0`). -/
structure NExtra where
  genre : Option String := none
  country : Option String := none
  skip : Nat := 0
  deriving Repr, DecidableEq

/-- The sort key of `filtered.sort((a, b) => (a.name || '').localeCompare(b.name || ''))`,
as a character sequence. -/
def nameKey (c : NChannel) : List Char :=
  (jsOrD c.name "").data

/-- The name-comparator order used by the catalog sort; `localeCompare`'s
total order is modelled by lexicographic order on the character
sequences. -/
def nameLE (a b : NChannel) : Prop :=
  nameKey a ≤ nameKey b

/-- The name sort key read off a produced meta (`meta.name = channel.name`). -/
def metaNameKey (m : NMeta) : List Char :=
  (jsOrD m.name "").data

instance : DecidableRel nameLE := fun a b => by
  unfold nameLE; infer_instance

instance : IsTotal NChannel nameLE :=
  ⟨fun a b => le_total (nameKey a) (nameKey b)⟩

instance : IsTrans NChannel nameLE :=
  ⟨fun _ _ _ h h' => le_trans h h'⟩

/-- The catalog-id filtering stage of `handleCatalog`
(`src/netlify/functions/addons.js` lines 184-202): country, region or
category catalogs; every other id (e.g. `iptv-global`) passes the list
through.  JS `id.replace(prefix, '')` replaces the first occurrence only,
which under the `startsWith` guard is exactly dropping the prefix. -/
def catalogIdFilter (channels : List NChannel) (id : String) : List NChannel :=
  if id.startsWith "iptv-country-" then
    channels.filter (fun ch => ch.country == some (jsToUpper (id.drop "iptv-country-".length)))
  else if id.startsWith "iptv-region-" then
    channels.filter (fun ch =>
      match ch.country with
      | some ctry => (regionCountries (id.drop "iptv-region-".length)).contains ctry
      | none => false)
  else if id.startsWith "iptv-category-" then
    channels.filter (fun ch => (ch.categories.getD []).contains (id.drop "iptv-category-".length))
  else channels

/-- The `extra.genre` filtering stage of `handleCatalog` (lines 205-210);
an absent or empty genre is falsy and skips the filter. -/
def catalogGenreFilter (channels : List NChannel) (genre : Option String) :
    List NChannel :=
  match genre with
  | some g =>
      if g = "" then channels
      else channels.filter (fun ch => (ch.categories.getD []).contains (jsToLower g))
  | none => channels

/-- The `extra.country` filtering stage of `handleCatalog` (lines 212-214). -/
def catalogCountryFilter (channels : List NChannel) (country : Option String) :
    List NChannel :=
  match country with
  | some ctry =>
      if ctry = "" then channels
      else channels.filter (fun ch => ch.country == some ctry)
  | none => channels

/-- All channel-level filtering of `handleCatalog` (lines 184-217): the
catalog-id stage, the `extra` stages, and the NSFW filter. -/
def catalogChannels (channels : List NChannel) (id : String) (extra : NExtra) :
    List NChannel :=
  (catalogCountryFilter
      (catalogGenreFilter (catalogIdFilter channels id) extra.genre)
      extra.country).filter (fun ch => !ch.is_nsfw)

/-- `handleCatalog` (`src/netlify/functions/addons.js` lines 178-233):
channel filtering, the name sort
(`(a.name || '').localeCompare(b.name || '')`), the 100-entry page at the
`skip` offset, and the meta conversion. -/
def handleCatalog (channels : List NChannel) (streams : List NStream)
    (id : String) (extra : NExtra) : List NMeta :=
  ((((catalogChannels channels id extra).insertionSort nameLE).drop extra.skip).take
    100).map (channelToMeta streams)

/-! ## Concrete fixtures used by the claim theorems -/

/-- A remote Greek channel. -/
def chGR : Channel :=
  { id := "ert1", name := "ERT1", country := "GR" }

/-- A stream for `chGR`. -/
def sGR : Stream :=
  { channel := "ert1", url := "http://stream.example/ert1" }

/-- The default configuration of variant A (`INCLUDE_COUNTRIES` unset:
`['GR']`). -/
def cfgGR : Config :=
  { includeCountries := ["GR"] }

/-- A refresh environment in which every fetch succeeds. -/
def envOKGR : FetchEnv :=
  { channelsFetch := .ok [chGR], streamsFetch := .ok [sGR], custom := ([], []) }

/-- A refresh environment whose remote channel fetch fails (times out)
while the stream fetch would still succeed and the custom overlay is
empty. -/
def envFailGR : FetchEnv :=
  { channelsFetch := .error (), streamsFetch := .ok [sGR], custom := ([], []) }

/-- The cache state after a first successful refresh from the empty
state: it holds a one-element merged snapshot. -/
def stAfterFirstRefresh : CacheState :=
  fetchAndCacheInfo cfgGR envOKGR {}

/-- A remote channel with id `x`. -/
def chRemX : Channel :=
  { id := "x", name := "Remote X", country := "GR" }

/-- A custom-overlay channel with the same id `x`. -/
def chCustX : Channel :=
  { id := "x", name := "Custom X", country := "AU", isCustom := true }

/-- A stream for channel id `x`. -/
def sX : Stream :=
  { channel := "x", url := "http://stream.example/x" }

/-- A custom channel whose country is `AU`, for the variant-B filter. -/
def chCustAU : Channel :=
  { id := "x1", name := "X1", country := "AU", categories := some ["news"],
    isCustom := true }

/-- A stream for channel id `x1`. -/
def sX1 : Stream :=
  { channel := "x1", url := "http://stream.example/x1" }

/-- The configuration variant B runs under once `initializeConfig` has
added `PT` to the included countries. -/
def cfgPT : Config :=
  { includeCountries := ["PT"] }

/-- Two streams for the same channel id `x`, in source order. -/
def sXfirst : Stream :=
  { channel := "x", url := "http://stream.example/first" }

/-- The second stream for channel id `x`. -/
def sXsecond : Stream :=
  { channel := "x", url := "http://stream.example/second" }

/-- A raw custom-overlay channel that supplies no `categories` and no
`country`. -/
def rcNoCat : RawChannel :=
  { id := "c1", name := "Custom One" }

/-- A raw custom-overlay stream for `rcNoCat`. -/
def rsC1 : RawStream :=
  { channel := "c1", url := "http://stream.example/c1" }

/-- A custom overlay file holding `rcNoCat` and its stream. -/
def fileC7 : CustomFile :=
  { channels := [rcNoCat], streams := [rsC1] }

/-- A channel with no associated stream. -/
def chNoStream : Channel :=
  { id := "nostream", name := "No Stream", country := "GR" }

/-- A non-NSFW channel named Alpha for the serverless catalog. -/
def nchA : NChannel :=
  { id := "alpha", name := some "Alpha", country := some "US" }

/-- A non-NSFW channel named Beta for the serverless catalog. -/
def nchB : NChannel :=
  { id := "beta", name := some "Beta", country := some "GB" }

/-- An NSFW-flagged channel for the serverless catalog. -/
def nchN : NChannel :=
  { id := "adult1", name := some "Adult", country := some "US", is_nsfw := true }

/-- A stream for `nchA`. -/
def nstA : NStream :=
  { channel := "alpha", url := "http://stream.example/alpha" }

/-! ## Helper lemmas -/

theorem iptv_prefix_cancel {a b : String} :
    ("iptv-" ++ a = "iptv-" ++ b) ↔ a = b := by
  constructor
  · intro h
    have hd := congrArg String.data h
    simp only [String.data_append] at hd
    exact String.ext (List.append_cancel_left hd)
  · intro h
    rw [h]

theorem streamMapA_foldl_apply (streams : List Stream)
    (init : String → Option Stream) (id : String) :
    (streams.foldl
      (fun m s =>
        if s.channel = "" then m
        else fun k => if k = s.channel then some s else m k) init) id =
    (streams.reverse.find? (fun s => s.channel == id && !(s.channel == ""))).or
      (init id) := by
  induction streams generalizing init with
  | nil => simp
  | cons s rest ih =>
    simp only [List.foldl_cons, List.reverse_cons, List.find?_append, ih,
      Option.or_assoc]
    congr 1
    by_cases hch : s.channel = ""
    · simp [hch]
    · by_cases hid : id = s.channel
      · simp [hch, hid]
      · have h1 : (s.channel == id) = false := by
          rw [beq_eq_false_iff_ne]
          exact fun h => hid h.symm
        simp [hch, hid, h1]

theorem streamMapA_eq (streams : List Stream) (id : String) :
    streamMapA streams id =
      streams.reverse.find? (fun s => s.channel == id && !(s.channel == "")) := by
  unfold streamMapA
  rw [streamMapA_foldl_apply]
  exact Option.or_none

theorem streamMapA_isSome_iff {streams : List Stream} {id : String} :
    (streamMapA streams id).isSome = true ↔
      ∃ s ∈ streams, s.channel = id ∧ s.channel ≠ "" := by
  rw [streamMapA_eq]
  simp [List.find?_isSome]

theorem streamMapB_foldl_apply (streams : List Stream)
    (init : String → Option Stream) (id : String) :
    (streams.foldl
      (fun m s => fun k => if k = s.channel then some s else m k) init) id =
    (streams.reverse.find? (fun s => s.channel == id)).or (init id) := by
  induction streams generalizing init with
  | nil => simp
  | cons s rest ih =>
    simp only [List.foldl_cons, List.reverse_cons, List.find?_append, ih,
      Option.or_assoc]
    congr 1
    by_cases hid : id = s.channel
    · simp [hid]
    · have h1 : (s.channel == id) = false := by
        rw [beq_eq_false_iff_ne]
        exact fun h => hid h.symm
      simp [hid, h1]

theorem streamMapB_eq (streams : List Stream) (id : String) :
    streamMapB streams id = streams.reverse.find? (fun s => s.channel == id) := by
  unfold streamMapB
  rw [streamMapB_foldl_apply]
  exact Option.or_none

theorem streamMapB_isSome_iff {streams : List Stream} {id : String} :
    (streamMapB streams id).isSome = true ↔ ∃ s ∈ streams, s.channel = id := by
  rw [streamMapB_eq]
  simp [List.find?_isSome]

theorem channelPredA_isSome {cfg : Config} {sm : String → Option Stream}
    {c : Channel} (h : channelPredA cfg sm c = true) : (sm c.id).isSome = true := by
  cases hsm : sm c.id with
  | none => simp [channelPredA, hsm] at h
  | some s => simp [hsm]

theorem channelPredA_of_custom {cfg : Config} {sm : String → Option Stream}
    {c : Channel} (h1 : c.isCustom = true) (h2 : (sm c.id).isSome = true) :
    channelPredA cfg sm c = true := by
  obtain ⟨s, hs⟩ := Option.isSome_iff_exists.mp h2
  simp [channelPredA, hs, h1]

theorem channelPredB_custom_PT {cfg : Config} {sm : String → Option Stream}
    {c : Channel} (h1 : c.isCustom = true) (h2 : c.country = "PT")
    (h3 : (sm c.id).isSome = true) : channelPredB cfg sm c = true := by
  simp [channelPredB, h1, h2, h3]

theorem mkMetaA_id (sm : String → Option Stream) (c : Channel) :
    (mkMetaA sm c).id = "iptv-" ++ c.id := by
  unfold mkMetaA
  split <;> simp [toMeta]

theorem mergeCoreA_def (cfg : Config) (allC : List Channel) (allS : List Stream) :
    mergeCoreA cfg allC allS =
      (allC.filter (channelPredA cfg (streamMapA allS))).map
        (mkMetaA (streamMapA allS)) := rfl

theorem mem_mergeCoreA {cfg : Config} {allC : List Channel} {allS : List Stream}
    {m : Meta} :
    m ∈ mergeCoreA cfg allC allS ↔
      ∃ c, c ∈ allC ∧ channelPredA cfg (streamMapA allS) c = true ∧
        m = mkMetaA (streamMapA allS) c := by
  rw [mergeCoreA_def]
  constructor
  · intro hm
    obtain ⟨c, hc, rfl⟩ := List.mem_map.mp hm
    exact ⟨c, (List.mem_filter.mp hc).1, (List.mem_filter.mp hc).2, rfl⟩
  · rintro ⟨c, hc, hp, rfl⟩
    exact List.mem_map.mpr ⟨c, List.mem_filter.mpr ⟨hc, hp⟩, rfl⟩

theorem mergeCoreA_id_has_stream {cfg : Config} {allC : List Channel}
    {allS : List Stream} {m : Meta} (hm : m ∈ mergeCoreA cfg allC allS) :
    ∃ c ∈ allC, m.id = "iptv-" ++ c.id ∧ ∃ s ∈ allS, s.channel = c.id := by
  obtain ⟨c, hc, hpred, rfl⟩ := mem_mergeCoreA.mp hm
  obtain ⟨s, hs, hch, _⟩ := streamMapA_isSome_iff.mp (channelPredA_isSome hpred)
  exact ⟨c, hc, mkMetaA_id _ c, s, hs, hch⟩

theorem mergeA_def (cfg : Config) (api cust : List Channel)
    (apiS custS : List Stream) :
    mergeA cfg api apiS cust custS =
      if (api ++ cust).length = 0 then []
      else mergeCoreA cfg (api ++ cust) (apiS ++ custS) := rfl

theorem mergeA_eq_mergeCoreA {cfg : Config} {api cust : List Channel}
    {apiS custS : List Stream} (h : api ++ cust ≠ []) :
    mergeA cfg api apiS cust custS = mergeCoreA cfg (api ++ cust) (apiS ++ custS) := by
  rw [mergeA_def, if_neg]
  simpa [List.length_eq_zero] using h

theorem mergeP_def (cfg : Config) (api cust : List Channel)
    (apiS custS : List Stream) :
    mergeP cfg api apiS cust custS =
      if (api ++ cust).length = 0 then []
      else
        (((api ++ cust).filter (channelPredP cfg (apiS ++ custS))).map
          (mkMetaP (apiS ++ custS))).filter
            (fun m => decide (m.streams.length > 0)) := rfl

theorem mem_mergeP {cfg : Config} {api cust : List Channel}
    {apiS custS : List Stream} {m : MetaP}
    (hm : m ∈ mergeP cfg api apiS cust custS) :
    ∃ c, c ∈ api ++ cust ∧ channelPredP cfg (apiS ++ custS) c = true ∧
      m = mkMetaP (apiS ++ custS) c := by
  rw [mergeP_def] at hm
  split at hm
  · simp at hm
  · obtain ⟨hm1, _⟩ := List.mem_filter.mp hm
    obtain ⟨c, hc, rfl⟩ := List.mem_map.mp hm1
    exact ⟨c, (List.mem_filter.mp hc).1, (List.mem_filter.mp hc).2, rfl⟩

theorem channelPredP_has_stream {cfg : Config} {allS : List Stream} {c : Channel}
    (h : channelPredP cfg allS c = true) : ∃ s ∈ allS, s.channel = c.id := by
  unfold channelPredP at h
  split at h
  · exact absurd h (by simp)
  · rename_i hne
    have hne' : streamsFor allS c.id ≠ [] := by
      simpa [List.isEmpty_iff] using hne
    obtain ⟨s, hs⟩ := List.exists_mem_of_ne_nil _ hne'
    have hmem := List.mem_filter.mp hs
    exact ⟨s, hmem.1, by simpa using hmem.2⟩

theorem channelPredP_streamsFor_ne_nil {cfg : Config} {allS : List Stream}
    {c : Channel} (h : channelPredP cfg allS c = true) :
    streamsFor allS c.id ≠ [] := by
  unfold channelPredP at h
  split at h
  · exact absurd h (by simp)
  · rename_i hne
    simpa [List.isEmpty_iff] using hne

theorem jsOrD_ne_empty (a : Option String) {d : String} (hd : d ≠ "") :
    jsOrD a d ≠ "" := by
  cases a with
  | none => simpa [jsOrD] using hd
  | some s => by_cases hs : s = "" <;> simp [jsOrD, hs, hd]

theorem mergeCoreB_def (cfg : Config) (allC : List Channel) (allS : List Stream) :
    mergeCoreB cfg allC allS =
      (allC.filter (channelPredB cfg (streamMapB allS))).filterMap
        (mkMetaB? (streamMapB allS)) := rfl

theorem mem_catalogIdFilter {channels : List NChannel} {id : String}
    {ch : NChannel} (hm : ch ∈ catalogIdFilter channels id) : ch ∈ channels := by
  unfold catalogIdFilter at hm
  split_ifs at hm <;>
    first
      | exact List.mem_of_mem_filter hm
      | exact hm

theorem mem_catalogGenreFilter {channels : List NChannel} {genre : Option String}
    {ch : NChannel} (hm : ch ∈ catalogGenreFilter channels genre) : ch ∈ channels := by
  unfold catalogGenreFilter at hm
  split at hm
  · split_ifs at hm
    · exact hm
    · exact List.mem_of_mem_filter hm
  · exact hm

theorem mem_catalogCountryFilter {channels : List NChannel} {country : Option String}
    {ch : NChannel} (hm : ch ∈ catalogCountryFilter channels country) : ch ∈ channels := by
  unfold catalogCountryFilter at hm
  split at hm
  · split_ifs at hm
    · exact hm
    · exact List.mem_of_mem_filter hm
  · exact hm

theorem mem_catalogChannels {channels : List NChannel} {id : String}
    {extra : NExtra} {ch : NChannel} (hm : ch ∈ catalogChannels channels id extra) :
    ch ∈ channels ∧ ch.is_nsfw = false := by
  unfold catalogChannels at hm
  have h4 := List.mem_filter.mp hm
  refine ⟨?_, by simpa using h4.2⟩
  exact mem_catalogIdFilter (mem_catalogGenreFilter (mem_catalogCountryFilter h4.1))

/-! ## Claim theorems -/

/-- C6 counterexample: in the `src/unnamed/part_002` variant cited by the
claim, `verifyStreamURL` never consults or updates the cache, so calling
it twice on the same URL (cache cold or not) issues **two** network
probes — not exactly one — and the second call returns its own probe's
outcome rather than a cached boolean: after a failing first call the
second call with a succeeding probe returns `true`, not the `false` the
claim says would have been cached and served. -/
theorem C6_serverless_two_probes_counterexample :
    (verifyStreamURLServerless [] "http://u.example/s" (.error ())).2.2 +
        (verifyStreamURLServerless
          (verifyStreamURLServerless [] "http://u.example/s" (.error ())).2.1
          "http://u.example/s" (.ok 200)).2.2 = 2 ∧
    (verifyStreamURLServerless [] "http://u.example/s" (.error ())).1 = false ∧
    (verifyStreamURLServerless
        (verifyStreamURLServerless [] "http://u.example/s" (.error ())).2.1
        "http://u.example/s" (.ok 200)).1 = true ∧
    (verifyStreamURLServerless
        (verifyStreamURLServerless [] "http://u.example/s" (.error ())).2.1
        "http://u.example/s" (.ok 200)).2.1 = [] := by
  decide

/-- C6 (amended): in the cached implementation (`src/index.js`
lines 566-609, `NodeCache` with `stdTTL: 0`, so entries never expire and
every second call is within the TTL window) calling `verifyStreamURL`
twice on the same not-yet-cached URL issues exactly one network probe in
total: the first call probes and caches the boolean outcome (`true` or
`false` alike, failures cached the same way as successes), and the second
call returns that cached boolean without probing and leaves the cache
unchanged.  In the serverless variant (`src/unnamed/part_002`
lines 91-119) `verifyStreamURL` never reads or writes the cache: every
pair of calls issues two probes and leaves the cache exactly as it was. -/
theorem C6_verify_caching_per_variant :
    (∀ (vc : List (String × Bool)) (url : String) (p1 p2 : Except Unit Nat),
      vc.lookup url = none →
      (verifyStreamURL vc url p1).2.2 +
          (verifyStreamURL (verifyStreamURL vc url p1).2.1 url p2).2.2 = 1 ∧
      (verifyStreamURL (verifyStreamURL vc url p1).2.1 url p2).1 =
          (verifyStreamURL vc url p1).1 ∧
      (verifyStreamURL (verifyStreamURL vc url p1).2.1 url p2).2.1 =
          (verifyStreamURL vc url p1).2.1) ∧
    (∀ (vc : List (String × Bool)) (url : String) (p1 p2 : Except Unit Nat),
      (verifyStreamURLServerless vc url p1).2.2 +
          (verifyStreamURLServerless
            (verifyStreamURLServerless vc url p1).2.1 url p2).2.2 = 2 ∧
      (verifyStreamURLServerless
        (verifyStreamURLServerless vc url p1).2.1 url p2).2.1 = vc) := by
  constructor
  · intro vc url p1 p2 h
    cases p1 with
    | ok status => simp [verifyStreamURL, h, List.lookup]
    | error e => simp [verifyStreamURL, h, List.lookup]
  · intro vc url p1 p2
    cases p1 <;> cases p2 <;> simp [verifyStreamURLServerless]

/-- Witness for C6 at a concrete cold cache: the cached variant with a
failing first probe serves the cached `false` to the second call with one
probe in total; the serverless variant probes twice and leaves the cache
empty. -/
theorem C6_verify_caching_per_variant_witness :
    (([] : List (String × Bool)).lookup "http://u.example/s" = none ∧
     ((verifyStreamURL [] "http://u.example/s" (.error ())).2.2 +
         (verifyStreamURL (verifyStreamURL [] "http://u.example/s" (.error ())).2.1
           "http://u.example/s" (.ok 200)).2.2 = 1 ∧
      (verifyStreamURL (verifyStreamURL [] "http://u.example/s" (.error ())).2.1
           "http://u.example/s" (.ok 200)).1 =
         (verifyStreamURL [] "http://u.example/s" (.error ())).1 ∧
      (verifyStreamURL (verifyStreamURL [] "http://u.example/s" (.error ())).2.1
           "http://u.example/s" (.ok 200)).2.1 =
         (verifyStreamURL [] "http://u.example/s" (.error ())).2.1)) ∧
    ((verifyStreamURLServerless [] "http://u.example/s" (.error ())).2.2 +
         (verifyStreamURLServerless
           (verifyStreamURLServerless [] "http://u.example/s" (.error ())).2.1
           "http://u.example/s" (.ok 200)).2.2 = 2 ∧
     (verifyStreamURLServerless
         (verifyStreamURLServerless [] "http://u.example/s" (.error ())).2.1
         "http://u.example/s" (.ok 200)).2.1 = []) :=
  ⟨⟨rfl, C6_verify_caching_per_variant.1 [] "http://u.example/s"
      (.error ()) (.ok 200) rfl⟩,
   C6_verify_caching_per_variant.2 [] "http://u.example/s" (.error ()) (.ok 200)⟩

/-- C9: for an id that matches no meta in the current snapshot, the meta
handler returns the not-found sentinel (`meta || {}`, modelled `none`) and
the stream handler returns the empty list; both are total functions, so no
error is raised. -/
theorem C9_unknown_id_lookups (snapshot : List Meta) (id : String)
    (h : ∀ m ∈ snapshot, m.id ≠ id) :
    metaHandler snapshot "tv" id = none ∧ streamHandler snapshot "tv" id = [] := by
  have hf : snapshot.find? (fun m => m.id = id) = none := by
    rw [List.find?_eq_none]
    intro m hm
    simpa using h m hm
  constructor
  · unfold metaHandler
    split
    · exact hf
    · rfl
  · unfold streamHandler
    split
    · rw [hf]
    · rfl

/-- Witness for C9: a one-meta snapshot queried with an id it does not
contain. -/
theorem C9_unknown_id_lookups_witness :
    metaHandler [toMeta chGR] "tv" "iptv-nonexistent" = none ∧
    streamHandler [toMeta chGR] "tv" "iptv-nonexistent" = [] :=
  C9_unknown_id_lookups [toMeta chGR] "iptv-nonexistent" (by decide)

/-- C1 (code bug): a failed remote channel fetch during a refresh does
*not* preserve the previous snapshot.  `fetchAndCacheInfo` deletes the
`'channelsInfo'` key before fetching, and the fallback
`cache.get('apiChannels') || []` in `getApiChannels` reads a cache key
that no code path ever writes (first conjunct: no refresh ever changes
it), so with an empty custom overlay the rebuild sees zero channels and
publishes nothing.  Concretely: after a successful refresh the snapshot is
non-empty and the catalog serves it, but running one refresh whose channel
fetch fails leaves the cache without any snapshot and the catalog then
serves the empty list. -/
theorem C1_failed_refresh_destroys_snapshot :
    (∀ (cfg : Config) (env : FetchEnv) (st : CacheState),
        (fetchAndCacheInfo cfg env st).apiChannels = st.apiChannels) ∧
    stAfterFirstRefresh.channelsInfo ≠ none ∧
    (catalogHandler cfgGR envFailGR stAfterFirstRefresh "GR" none).1 ≠ [] ∧
    (fetchAndCacheInfo cfgGR envFailGR stAfterFirstRefresh).channelsInfo = none ∧
    (catalogHandler cfgGR envFailGR
        (fetchAndCacheInfo cfgGR envFailGR stAfterFirstRefresh) "GR" none).1 = [] := by
  refine ⟨?_, by decide, by decide, by decide, by decide⟩
  intro cfg env st
  obtain ⟨sa, sc, si⟩ := st
  unfold fetchAndCacheInfo getAllInfo getApiStreams
  cases sa <;> cases hf : env.streamsFetch <;> simp [hf] <;> split <;> rfl

/-- C5: a channel record with zero stream records whose `channel` field
equals its id never appears in the merged output, whatever the filter
policy — in variant A (`src/index.js`, the filter predicate requires
`streamMap.has(channel.id)`) and in variant P (`src/unnamed/part_001`,
`finalChannels` additionally requires a non-empty `streams` list). -/
theorem C5_no_stream_never_appears :
    (∀ (cfg : Config) (allC : List Channel) (allS : List Stream) (ch : Channel),
      (∀ s ∈ allS, s.channel ≠ ch.id) →
      ∀ m ∈ mergeCoreA cfg allC allS, m.id ≠ "iptv-" ++ ch.id) ∧
    (∀ (cfg : Config) (api cust : List Channel) (apiS custS : List Stream)
      (ch : Channel),
      (∀ s ∈ apiS ++ custS, s.channel ≠ ch.id) →
      ∀ m ∈ mergeP cfg api apiS cust custS, m.id ≠ "iptv-" ++ ch.id) := by
  constructor
  · intro cfg allC allS ch h m hm heq
    obtain ⟨c, _, hid, s, hs, hch⟩ := mergeCoreA_id_has_stream hm
    have : c.id = ch.id := iptv_prefix_cancel.mp (hid ▸ heq)
    exact h s hs (hch.trans this)
  · intro cfg api cust apiS custS ch h m hm heq
    obtain ⟨c, _, hpred, rfl⟩ := mem_mergeP hm
    obtain ⟨s, hs, hch⟩ := channelPredP_has_stream hpred
    have hid : (mkMetaP (apiS ++ custS) c).id = "iptv-" ++ c.id := rfl
    have : c.id = ch.id := iptv_prefix_cancel.mp (hid ▸ heq)
    exact h s hs (hch.trans this)

/-- Witness for C5: with `chNoStream` having no matching stream, the one
meta both variants do produce is not `chNoStream`'s. -/
theorem C5_no_stream_never_appears_witness :
    (mkMetaA (streamMapA [sGR]) chGR).id ≠ "iptv-" ++ chNoStream.id ∧
    (mkMetaP ([sGR] ++ []) chGR).id ≠ "iptv-" ++ chNoStream.id :=
  ⟨C5_no_stream_never_appears.1 cfgGR [chGR, chNoStream] [sGR] chNoStream (by decide)
     (mkMetaA (streamMapA [sGR]) chGR) (by decide),
   C5_no_stream_never_appears.2 cfgGR [chGR, chNoStream] [] [sGR] [] chNoStream
     (by decide) (mkMetaP ([sGR] ++ []) chGR) (by decide)⟩

/-- C2 counterexample: when the same id `x` appears in the remote
directory and in the custom overlay and both records pass the filter, the
merged catalog contains *two* records with id `iptv-x` — the remote one
first, keeping its own fields — not exactly one record with the custom
record's fields.  The merge concatenates channel lists without
deduplicating by id. -/
theorem C2_duplicate_ids_counterexample :
    (mergeA cfgGR [chRemX] [sX] [chCustX] []).countP
        (fun m => m.id == "iptv-x") = 2 ∧
    (mergeA cfgGR [chRemX] [sX] [chCustX] []).map Meta.name =
      ["Remote X", "Custom X"] := by
  decide

/-- C2 (amended): the merged catalog is not deduplicated by id — it
contains exactly one record per occurrence of a channel id that passes the
filter predicate, in concatenation order, so ids are not unique when a
remote and a custom record share one and both survive.  The custom record
itself does always appear with its own fields whenever it has an
associated stream. -/
theorem C2_merge_id_multiplicity :
    (∀ (cfg : Config) (api cust : List Channel) (apiS custS : List Stream)
      (cid : String),
      (mergeA cfg api apiS cust custS).countP
          (fun m => m.id == "iptv-" ++ cid) =
        (api ++ cust).countP
          (fun c => channelPredA cfg (streamMapA (apiS ++ custS)) c &&
            c.id == cid)) ∧
    (∀ (cfg : Config) (api cust : List Channel) (apiS custS : List Stream)
      (c : Channel),
      c ∈ cust → c.isCustom = true →
      (∃ s ∈ apiS ++ custS, s.channel = c.id ∧ s.channel ≠ "") →
      mkMetaA (streamMapA (apiS ++ custS)) c ∈ mergeA cfg api apiS cust custS) := by
  constructor
  · intro cfg api cust apiS custS cid
    rw [mergeA_def]
    split
    · rename_i hlen
      rw [List.length_eq_zero.mp hlen]
      simp
    · rw [mergeCoreA_def, List.countP_map, List.countP_filter]
      apply List.countP_congr
      intro c hc
      simp [mkMetaA_id, iptv_prefix_cancel, and_comm]
  · rintro cfg api cust apiS custS c hc hcust ⟨s, hs, hch, hne⟩
    have hsome : (streamMapA (apiS ++ custS) c.id).isSome = true :=
      streamMapA_isSome_iff.mpr ⟨s, hs, hch, hne⟩
    have hmemc : c ∈ api ++ cust := List.mem_append.mpr (Or.inr hc)
    have hne' : api ++ cust ≠ [] := by
      intro h
      rw [h] at hmemc
      simp at hmemc
    rw [mergeA_eq_mergeCoreA hne']
    exact mem_mergeCoreA.mpr ⟨c, hmemc, channelPredA_of_custom hcust hsome, rfl⟩

/-- Witness for C2: the count identity and the custom-record presence at
the duplicate-id input. -/
theorem C2_merge_id_multiplicity_witness :
    ((mergeA cfgGR [chRemX] [sX] [chCustX] []).countP
        (fun m => m.id == "iptv-" ++ "x") =
      ([chRemX] ++ [chCustX]).countP
        (fun c => channelPredA cfgGR (streamMapA ([sX] ++ [])) c &&
          c.id == "x")) ∧
    mkMetaA (streamMapA ([sX] ++ [])) chCustX ∈ mergeA cfgGR [chRemX] [sX] [chCustX] [] :=
  ⟨C2_merge_id_multiplicity.1 cfgGR [chRemX] [chCustX] [sX] [] "x",
   C2_merge_id_multiplicity.2 cfgGR [chRemX] [chCustX] [sX] [] chCustX
     (by decide) rfl ⟨sX, by decide, rfl, by decide⟩⟩

/-- C3 counterexample: in the second merge variant of `src/index.js`
(filter predicate at lines 637-651) a channel marked custom with an
associated stream does *not* appear when its country is not `'PT'` and
fails the country policy — the bypass there is limited to
`channel.isCustom && channel.country === 'PT'`.  Here a custom `AU`
channel with a stream is dropped under `includeCountries = ['PT']`. -/
theorem C3_variantB_custom_filtered_counterexample :
    chCustAU.isCustom = true ∧
    (∃ s ∈ [sX1], s.channel = chCustAU.id) ∧
    mergeCoreB cfgPT [chCustAU] [sX1] = [] := by
  refine ⟨rfl, ⟨sX1, by decide, rfl⟩, by decide⟩

/-- C3 (amended): in variant A (`src/index.js` lines 186-201) every
channel marked custom with at least one associated stream appears in the
merged catalog regardless of the include/exclude country, language and
category policy, and a custom channel with no associated stream never
appears; in variant B (lines 637-651) the bypass additionally requires
`country === 'PT'` — only custom channels with country `'PT'` and a stream
are guaranteed to appear there. -/
theorem C3_custom_bypass :
    (∀ (cfg : Config) (api cust : List Channel) (apiS custS : List Stream)
      (c : Channel),
      c ∈ api ++ cust → c.isCustom = true →
      (∃ s ∈ apiS ++ custS, s.channel = c.id ∧ s.channel ≠ "") →
      mkMetaA (streamMapA (apiS ++ custS)) c ∈ mergeA cfg api apiS cust custS) ∧
    (∀ (cfg : Config) (allC : List Channel) (allS : List Stream) (c : Channel),
      c.isCustom = true → (∀ s ∈ allS, s.channel ≠ c.id) →
      ∀ m ∈ mergeCoreA cfg allC allS, m.id ≠ "iptv-" ++ c.id) ∧
    (∀ (cfg : Config) (allC : List Channel) (allS : List Stream) (c : Channel),
      c ∈ allC → c.isCustom = true → c.country = "PT" →
      (∃ s ∈ allS, s.channel = c.id) →
      ∃ m ∈ mergeCoreB cfg allC allS, m.id = "iptv-" ++ c.id) := by
  refine ⟨?_, ?_, ?_⟩
  · rintro cfg api cust apiS custS c hc hcust ⟨s, hs, hch, hne⟩
    have hsome : (streamMapA (apiS ++ custS) c.id).isSome = true :=
      streamMapA_isSome_iff.mpr ⟨s, hs, hch, hne⟩
    have hne' : api ++ cust ≠ [] := by
      intro h
      rw [h] at hc
      simp at hc
    rw [mergeA_eq_mergeCoreA hne']
    exact mem_mergeCoreA.mpr ⟨c, hc, channelPredA_of_custom hcust hsome, rfl⟩
  · intro cfg allC allS c _ h m hm heq
    obtain ⟨c', _, hid, s, hs, hch⟩ := mergeCoreA_id_has_stream hm
    have : c'.id = c.id := iptv_prefix_cancel.mp (hid ▸ heq)
    exact h s hs (hch.trans this)
  · rintro cfg allC allS c hc hcust hpt ⟨s, hs, hch⟩
    have hsome : (streamMapB allS c.id).isSome = true :=
      streamMapB_isSome_iff.mpr ⟨s, hs, hch⟩
    obtain ⟨s', hs'⟩ := Option.isSome_iff_exists.mp hsome
    have hmk : mkMetaB? (streamMapB allS) c =
        some { toMeta c with
                 streamInfo := some
                   { url := s'.url
                     title := jsOrD s'.title "Live Stream"
                     httpReferrer := jsOr s'.referrer s'.http_referrer
                     userAgent := none } } := by
      unfold mkMetaB?
      rw [hs']
    refine ⟨{ toMeta c with
                streamInfo := some
                  { url := s'.url
                    title := jsOrD s'.title "Live Stream"
                    httpReferrer := jsOr s'.referrer s'.http_referrer
                    userAgent := none } }, ?_, ?_⟩
    · rw [mergeCoreB_def]
      exact List.mem_filterMap.mpr
        ⟨c, List.mem_filter.mpr ⟨hc, channelPredB_custom_PT hcust hpt hsome⟩, hmk⟩
    · simp [toMeta]

/-- Witness for C3: a custom channel with a stream appears in variant A
under a policy that excludes its country; a custom channel with no stream
contributes no meta; and a `PT` custom channel with a stream appears in
variant B. -/
theorem C3_custom_bypass_witness :
    mkMetaA (streamMapA ([sX] ++ [])) chCustX ∈ mergeA cfgGR [] [sX] [chCustX] [] ∧
    (mkMetaA (streamMapA [sGR]) chGR).id ≠
      "iptv-" ++ { chNoStream with isCustom := true }.id ∧
    (mergeCoreB cfgPT [{ chCustAU with country := "PT" }] [sX1]).any
      (fun m => m.id == "iptv-" ++ "x1") = true := by
  refine ⟨?_, ?_, ?_⟩
  · exact C3_custom_bypass.1 cfgGR [] [chCustX] [sX] [] chCustX (by decide) rfl
      ⟨sX, by decide, rfl, by decide⟩
  · exact C3_custom_bypass.2.1 cfgGR [chGR, { chNoStream with isCustom := true }]
      [sGR] { chNoStream with isCustom := true } rfl (by decide)
      (mkMetaA (streamMapA [sGR]) chGR) (by decide)
  · obtain ⟨m, hm, hid⟩ := C3_custom_bypass.2.2 cfgPT
      [{ chCustAU with country := "PT" }] [sX1] { chCustAU with country := "PT" }
      (by decide) rfl rfl ⟨sX1, by decide, rfl⟩
    exact List.any_eq_true.mpr ⟨m, hm, by rw [beq_iff_eq, hid]; decide⟩

/-- C4 counterexample: the single-stream-per-channel implementation
(variant A, `src/index.js` lines 179-212) selects the *last* stream by
source order, not the first: with two streams for channel `x`, the merged
meta's `streamInfo.url` is the second stream's URL. -/
theorem C4_last_stream_counterexample :
    (mergeA cfgGR [chRemX] [sXfirst, sXsecond] [] []).map
        (fun m => m.streamInfo.map (fun si => si.url)) =
      [some "http://stream.example/second"] ∧
    sXfirst.url ≠ sXsecond.url := by
  decide

/-- C4 (amended): variant P (`src/unnamed/part_001`) maps every channel id
to the sequence of *all* stream records whose `channel` field equals it
(in source order), so a channel with multiple streams keeps them all; the
single-stream implementation (variant A) selects for each channel the
*last* stream by source order among streams with a truthy `channel` field
(`Map.set` overwrites), and each merged meta's `streamInfo` is built from
that selected stream. -/
theorem C4_stream_mapping :
    (∀ (cfg : Config) (api cust : List Channel) (apiS custS : List Stream)
      (m : MetaP), m ∈ mergeP cfg api apiS cust custS →
      ∃ c ∈ api ++ cust, m.id = "iptv-" ++ c.id ∧
        m.streams.map StreamDescP.url =
          ((apiS ++ custS).filter (fun s => s.channel = c.id)).map Stream.url ∧
        m.streams ≠ []) ∧
    (∀ (streams : List Stream) (id : String),
      streamMapA streams id =
        streams.reverse.find? (fun s => s.channel == id && !(s.channel == ""))) ∧
    (∀ (cfg : Config) (allC : List Channel) (allS : List Stream) (m : Meta),
      m ∈ mergeCoreA cfg allC allS →
      ∃ c ∈ allC, ∃ s, streamMapA allS c.id = some s ∧
        m.streamInfo = some (streamInfoOfA s)) := by
  refine ⟨?_, streamMapA_eq, ?_⟩
  · intro cfg api cust apiS custS m hm
    obtain ⟨c, hc, hpred, rfl⟩ := mem_mergeP hm
    refine ⟨c, hc, rfl, ?_, ?_⟩
    · simp [mkMetaP, streamsFor, List.map_map]
      rfl
    · have := channelPredP_streamsFor_ne_nil hpred
      simp [mkMetaP]
      simpa [List.map_eq_nil_iff] using this
  · intro cfg allC allS m hm
    obtain ⟨c, hc, hpred, rfl⟩ := mem_mergeCoreA.mp hm
    obtain ⟨s, hs⟩ := Option.isSome_iff_exists.mp (channelPredA_isSome hpred)
    refine ⟨c, hc, s, hs, ?_⟩
    unfold mkMetaA
    rw [hs]

/-- Witness for C4: at a concrete two-stream input, variant P's meta keeps
both stream URLs in source order, and variant A's map selects the last
stream. -/
theorem C4_stream_mapping_witness :
    (mkMetaP ([sXfirst, sXsecond] ++ []) chRemX).streams.map StreamDescP.url =
      ["http://stream.example/first", "http://stream.example/second"] ∧
    streamMapA [sXfirst, sXsecond] "x" = some sXsecond := by
  constructor
  · obtain ⟨c, hc, hid, hurls, hne⟩ :=
      C4_stream_mapping.1 cfgGR [chRemX] [] [sXfirst, sXsecond] []
        (mkMetaP ([sXfirst, sXsecond] ++ []) chRemX) (by decide)
    have hcc : c = chRemX := by simpa using hc
    rw [hcc] at hurls
    exact hurls.trans (by decide)
  · rw [C4_stream_mapping.2.1 [sXfirst, sXsecond] "x"]
    decide

/-- C7 counterexample: a custom channel to which no categories were ever
supplied is defaulted to `['auto']` by `loadCustomChannels`
(`src/index.js` line 104), not `['general']`: genre filtering on
`"general"` does *not* match it, while filtering on `"auto"` does. -/
theorem C7_general_default_counterexample :
    (loadCustomChannelsA true (some fileC7)).1.map Channel.categories =
      [some ["auto"]] ∧
    catalogFilter
      (mergeA cfgGR [] [] (loadCustomChannelsA true (some fileC7)).1
        (loadCustomChannelsA true (some fileC7)).2) "AU" (some "general") = [] ∧
    catalogFilter
      (mergeA cfgGR [] [] (loadCustomChannelsA true (some fileC7)).1
        (loadCustomChannelsA true (some fileC7)).2) "AU" (some "auto") ≠ [] := by
  decide

/-- C7 (amended): a custom channel record to which no categories were ever
supplied is treated as having categories `["auto"]` (the
`channel.categories || ['auto']` default of `loadCustomChannels`), so its
meta's genres are `["auto", country]` and genre filtering on `"auto"`
matches it; remote channels receive no such default at all. -/
theorem C7_auto_default (rc : RawChannel) (h : rc.categories = none) :
    (formatCustomChannelA rc).categories = some ["auto"] ∧
    (toMeta (formatCustomChannelA rc)).genres = ["auto", jsOrD rc.country "AU"] ∧
    ∀ snapshot : List Meta, toMeta (formatCustomChannelA rc) ∈ snapshot →
      toMeta (formatCustomChannelA rc) ∈
        catalogFilter snapshot (jsOrD rc.country "AU") (some "auto") := by
  have hk : jsOrD rc.country "AU" ≠ "" :=
    jsOrD_ne_empty rc.country (by decide)
  have hcat : (formatCustomChannelA rc).categories = some ["auto"] := by
    simp [formatCustomChannelA, h]
  have hg : (toMeta (formatCustomChannelA rc)).genres =
      ["auto", jsOrD rc.country "AU"] := by
    simp [toMeta, formatCustomChannelA, h, hk]
  refine ⟨hcat, hg, ?_⟩
  intro snapshot hmem
  unfold catalogFilter
  refine List.mem_filter.mpr ⟨List.mem_filter.mpr ⟨hmem, ?_⟩, ?_⟩
  · rw [hg]
    simp
  · rw [hg]
    simp

/-- Witness for C7: the no-categories custom channel `rcNoCat` survives
genre filtering on `"auto"`. -/
theorem C7_auto_default_witness :
    rcNoCat.categories = none ∧
    toMeta (formatCustomChannelA rcNoCat) ∈
      catalogFilter [toMeta (formatCustomChannelA rcNoCat)]
        (jsOrD rcNoCat.country "AU") (some "auto") :=
  ⟨rfl, (C7_auto_default rcNoCat rfl).2.2
    [toMeta (formatCustomChannelA rcNoCat)] (List.mem_singleton_self _)⟩

/-- C10: for every serverless catalog request, the returned meta list has
at most 100 entries (the page at the `skip` offset), is sorted by channel
name (the `localeCompare` comparator, modelled as lexicographic order on
the name's characters with `a.name || ''` as key), and every entry comes
from a channel with `is_nsfw = false` — the NSFW filter runs before
pagination, whatever the id and extra filters select. -/
theorem C10_catalog_page_properties (channels : List NChannel)
    (streams : List NStream) (id : String) (extra : NExtra) :
    (handleCatalog channels streams id extra).length ≤ 100 ∧
    List.Pairwise (fun a b => metaNameKey a ≤ metaNameKey b)
      (handleCatalog channels streams id extra) ∧
    ∀ m ∈ handleCatalog channels streams id extra,
      ∃ ch ∈ channels, ch.is_nsfw = false ∧ m = channelToMeta streams ch := by
  unfold handleCatalog
  refine ⟨?_, ?_, ?_⟩
  · rw [List.length_map]
    exact List.length_take_le _ _
  · have hs : List.Pairwise nameLE
        ((catalogChannels channels id extra).insertionSort nameLE) :=
      List.sorted_insertionSort nameLE _
    have hp : List.Pairwise nameLE
        ((((catalogChannels channels id extra).insertionSort nameLE).drop
          extra.skip).take 100) :=
      hs.sublist ((List.take_sublist _ _).trans (List.drop_sublist _ _))
    rw [List.pairwise_map]
    exact hp.imp (fun h => h)
  · intro m hm
    obtain ⟨ch, hch, rfl⟩ := List.mem_map.mp hm
    have hch2 : ch ∈ (catalogChannels channels id extra).insertionSort nameLE :=
      ((List.take_sublist _ _).trans (List.drop_sublist _ _)).mem hch
    have hch3 : ch ∈ catalogChannels channels id extra :=
      (List.perm_insertionSort nameLE _).mem_iff.mp hch2
    obtain ⟨hmem, hnsfw⟩ := mem_catalogChannels hch3
    exact ⟨ch, hmem, hnsfw, rfl⟩

/-- Witness for C10 at a concrete global-catalog request: three channels,
one NSFW; the page holds the two non-NSFW metas sorted by name, and the
first meta's provenance is a non-NSFW channel. -/
theorem C10_catalog_page_properties_witness :
    (handleCatalog [nchB, nchA, nchN] [nstA] "iptv-global" {}).length ≤ 100 ∧
    List.Pairwise (fun a b => metaNameKey a ≤ metaNameKey b)
      (handleCatalog [nchB, nchA, nchN] [nstA] "iptv-global" {}) ∧
    ([nchB, nchA, nchN].any
      (fun ch => !ch.is_nsfw &&
        (channelToMeta [nstA] nchA == channelToMeta [nstA] ch))) = true := by
  refine ⟨(C10_catalog_page_properties [nchB, nchA, nchN] [nstA] "iptv-global" {}).1,
    (C10_catalog_page_properties [nchB, nchA, nchN] [nstA] "iptv-global" {}).2.1, ?_⟩
  obtain ⟨ch, hch, hnsfw, hm⟩ :=
    (C10_catalog_page_properties [nchB, nchA, nchN] [nstA] "iptv-global" {}).2.2
      (channelToMeta [nstA] nchA) (by decide)
  exact List.any_eq_true.mpr ⟨ch, hch, by rw [hnsfw, Bool.and_eq_true, beq_iff_eq]; exact ⟨rfl, hm⟩⟩

end IPTV
